import Mathlib

/-!
Shallow embedding of the serverless feedback backend:
- `processFeedback.js` (Enrichment Worker: SQS batch handler + Bedrock call),
- `postFeedback.js` (Submission Intake),
- `updateRecommendation.js` (update-by-key),
- the search handler and the bulk-delete handler (Query Surface).

JavaScript-isms are modelled explicitly: `x || d` on strings via `jsOr`
(empty string is falsy), `String.prototype.trim` via `jsTrim`, absent
object fields via `Option`.  Timestamps and "now" are passed as explicit
`Nat` parameters; external services (SNS, DynamoDB, Bedrock, `Date`
parsing) are modelled as explicit inputs/outputs of the handlers.
-/

set_option autoImplicit false

/-- JS `||` on an optional string: `undefined` and `""` are falsy. -/
def jsOr (o : Option String) (d : String) : String :=
  match o with
  | none => d
  | some s => if s.isEmpty then d else s

/-- JS truthiness test for an optional string: absent or empty is falsy. -/
def falsyStr (o : Option String) : Bool :=
  (o.getD "").isEmpty

/-- JS whitespace for `trim` (the characters relevant here). -/
def isJsWs (c : Char) : Bool :=
  c = ' ' ∨ c = '\t' ∨ c = '\n' ∨ c = '\r'

/-- JS `String.prototype.trim`: strip leading and trailing whitespace. -/
def jsTrim (s : String) : String :=
  String.mk ((((s.data.dropWhile isJsWs).reverse).dropWhile isJsWs).reverse)

/-- JS `x || d` on an optional natural number: absent and `0` are falsy. -/
def jsOrNat (o : Option Nat) (d : Nat) : Nat :=
  match o with
  | none => d
  | some n => if n = 0 then d else n

/-- A recommendation item as stored in `recommendations` (the spec's
`enrichedOutput` items). -/
structure RecItem where
  id : String
  title : String
  description : String
  priority : String
  category : String
  deriving Repr, DecidableEq

/-- A raw recommendation object as found in the model's JSON array
(each field may be absent or falsy, modelled as `none`). -/
structure RecInput where
  title : Option String
  description : Option String
  priority : Option String
  category : Option String
  deriving Repr, DecidableEq

/-- Result of `JSON.parse` on the cleaned Bedrock output text: either a
JSON array of recommendation objects or some non-array JSON value. -/
inductive ModelValue where
  | arr (items : List RecInput)
  | nonArray
  deriving Repr, DecidableEq

/-- Outcome of the Bedrock invocation as seen by `generateRecommendations`:
`sendFailure` covers a failed/timed-out `send`, an undecodable response
body, and an unparsable recommendations text (all of which throw before a
JSON value is obtained); `modelOutput v` means `JSON.parse` succeeded
with value `v`. -/
inductive InferOutcome where
  | sendFailure
  | modelOutput (v : ModelValue)
  deriving Repr, DecidableEq

/-- processFeedback.js: normalization of one parsed recommendation object
(`recommendations.map((rec, index) => ...)`). -/
def normalizeRec (now : Nat) (index : Nat) (rec : RecInput) : RecItem :=
  { id := "rec-" ++ toString now ++ "-" ++ toString index
    title := (jsOr rec.title "Recommendation").take 100
    description := (jsOr rec.description "").take 500
    priority := if rec.priority = some "high" ∨ rec.priority = some "medium" ∨
        rec.priority = some "low" then rec.priority.getD "medium" else "medium"
    category := jsOr rec.category "general" }

/-- processFeedback.js: the fallback recommendation returned by the
`catch` branch of `generateRecommendations`. -/
def fallbackRec (now : Nat) : RecItem :=
  { id := "rec-fallback-" ++ toString now
    title := "Review and analyze feedback"
    description := "A detailed analysis of this feedback is recommended to identify specific areas for improvement."
    priority := "medium"
    category := "general" }

/-- processFeedback.js: the `try` block of `generateRecommendations`.
A send failure and a non-array JSON value both throw (the latter via
`throw new Error(...)` after the `Array.isArray` check, which sits inside
the same `try`). -/
def generateRecommendationsTry (now : Nat) (o : InferOutcome) :
    Except String (List RecItem) :=
  match o with
  | .sendFailure => .error "Bedrock invocation failed"
  | .modelOutput .nonArray =>
      .error "Bedrock did not return an array of recommendations"
  | .modelOutput (.arr items) =>
      .ok (items.mapIdx (fun index rec => normalizeRec now index rec))

/-- processFeedback.js `generateRecommendations`: the `catch` branch turns
ANY error from the `try` block into the single fallback item. -/
def generateRecommendations (now : Nat) (o : InferOutcome) : List RecItem :=
  match generateRecommendationsTry now o with
  | .ok recs => recs
  | .error _ => [fallbackRec now]

/-- The inner submission envelope recovered by the two `JSON.parse` calls
(fields may be absent). -/
structure FeedbackMessage where
  userId : Option String
  feedback : Option String
  timestamp : Option Nat
  feedbackType : Option String
  tags : Option (List String)
  deriving Repr, DecidableEq

/-- Outcome of `JSON.parse(record.body)` / `JSON.parse(snsMessage.Message)`:
`malformed` means one of the parses threw. -/
inductive ParseOutcome where
  | malformed
  | ok (msg : FeedbackMessage)
  deriving Repr, DecidableEq

/-- One SQS record of the batch, together with the outcome of the external
Bedrock call that processing this record would observe. -/
structure SqsRecord where
  messageId : String
  parse : ParseOutcome
  infer : InferOutcome
  deriving Repr, DecidableEq

/-- The DynamoDB item written by the Worker's `PutCommand` (also the unit
of storage read by the Query Surface; the spec's Recommendation Record).
`generatedAt`/`updatedAt` ISO timestamps are modelled as `Nat`. -/
structure StoredRecord where
  userId : String
  timestamp : Nat
  feedbackType : String
  originalFeedback : String
  recommendations : List RecItem
  generatedAt : Nat
  modelId : String
  tags : List String
  completed : Bool
  updatedAt : Nat
  deriving Repr, DecidableEq

/-- The `results` accumulator of the Worker handler. -/
structure WorkerResults where
  successful : List (String × String)
  failed : List (String × String)
  deriving Repr, DecidableEq

def emptyResults : WorkerResults := { successful := [], failed := [] }

def pushSuccess (r : WorkerResults) (messageId userId : String) : WorkerResults :=
  { r with successful := r.successful ++ [(messageId, userId)] }

def pushFailed (r : WorkerResults) (messageId err : String) : WorkerResults :=
  { r with failed := r.failed ++ [(messageId, err)] }

/-- State at the moment the Worker handler re-throws and aborts the batch:
the store as persisted so far, the accumulated results (the failing
message already pushed to `failed`), and the failing message id. -/
structure BatchAbort where
  store : List StoredRecord
  results : WorkerResults
  messageId : String
  deriving Repr, DecidableEq

/-- processFeedback.js: the item built for `PutCommand`. -/
def mkPutItem (now : Nat) (modelId : String) (msg : FeedbackMessage)
    (userId feedback : String) (recommendations : List RecItem) : StoredRecord :=
  { userId := userId
    timestamp := jsOrNat msg.timestamp now
    feedbackType := jsOr msg.feedbackType "general"
    originalFeedback := feedback
    recommendations := recommendations
    generatedAt := now
    modelId := modelId
    tags := msg.tags.getD []
    completed := false
    updatedAt := now }

/-- processFeedback.js handler loop (`for (const record of event.Records)`).
Per record: a parse failure throws inside the `try`, is caught by the
per-message `catch`, pushed to `failed` and RE-THROWN (aborting the batch,
modelled as `.error`); a parsed message missing `userId` or `feedback`
(JS-falsy, so absent or empty) is pushed to `failed` and the loop
`continue`s; otherwise recommendations are generated (never throwing,
thanks to the fallback) and the item is persisted. -/
def runBatch (now : Nat) (modelId : String) :
    List SqsRecord → List StoredRecord → WorkerResults →
    Except BatchAbort (List StoredRecord × WorkerResults)
  | [], store, results => .ok (store, results)
  | r :: rest, store, results =>
    match r.parse with
    | .malformed =>
        .error { store := store
                 results := pushFailed results r.messageId "Unexpected token"
                 messageId := r.messageId }
    | .ok msg =>
        if falsyStr msg.userId ∨ falsyStr msg.feedback then
          runBatch now modelId rest store
            (pushFailed results r.messageId "Invalid message format")
        else
          let userId := msg.userId.getD ""
          let feedback := msg.feedback.getD ""
          let recommendations := generateRecommendations now r.infer
          let item := mkPutItem now modelId msg userId feedback recommendations
          runBatch now modelId rest (store ++ [item])
            (pushSuccess results r.messageId userId)

/-- processFeedback.js `exports.handler`: process the whole batch starting
from an initial store. -/
def workerHandler (now : Nat) (modelId : String) (records : List SqsRecord)
    (store : List StoredRecord) :
    Except BatchAbort (List StoredRecord × WorkerResults) :=
  runBatch now modelId records store emptyResults

/-- A JSON value in the `feedback` position of the request body: a string,
or any non-string JSON value (every non-string is rejected by the
`!feedback || typeof feedback !== 'string' || ...` check, whether falsy
or truthy). -/
inductive JsVal where
  | str (s : String)
  | nonString
  deriving Repr, DecidableEq

/-- A JSON value in the `tags` position: an array of strings, or any
non-array value (rejected by the `Array.isArray` check). -/
inductive TagsVal where
  | arr (l : List String)
  | notArr
  deriving Repr, DecidableEq

/-- The parsed request body of the Intake handler (fields may be absent). -/
structure PostBody where
  feedback : Option JsVal
  tags : Option TagsVal
  feedbackType : Option String
  deriving Repr, DecidableEq

/-- The SNS message built by the Intake handler on success (the Dispatch
Channel envelope). -/
structure Envelope where
  userId : String
  feedback : String
  timestamp : Nat
  tags : List String
  feedbackType : String
  deriving Repr, DecidableEq

/-- Result of the Intake handler: 401, 400 (with the response message), or
202 with the published envelope, the channel-assigned message id, and the
response status string. -/
inductive PostResult where
  | unauthorized
  | badRequest (message : String)
  | accepted (envelope : Envelope) (messageId : String) (status : String)
  deriving Repr, DecidableEq

/-- postFeedback.js: `tags || []` at the envelope-building site (a present
array is used as-is, even when empty, since `[]` is truthy in JS). -/
def tagsOrEmpty (t : Option TagsVal) : List String :=
  match t with
  | some (.arr l) => l
  | _ => []

/-- postFeedback.js: the first validation check,
`!feedback || typeof feedback !== 'string' || feedback.trim().length === 0`. -/
def feedbackInvalid (f : Option JsVal) : Bool :=
  match f with
  | none => true
  | some .nonString => true
  | some (.str s) => (jsTrim s).isEmpty

/-- postFeedback.js `exports.handler`.  `userId` is the authorizer claim
(absent/empty is falsy → 401); `body` is the outcome of
`JSON.parse(event.body || '{}')` (`none` means the parse threw → 400);
`now` is `Date.now()`; `msgId` is the MessageId assigned by SNS. -/
def postHandler (now : Nat) (msgId : String) (userId : Option String)
    (body : Option PostBody) : PostResult :=
  if falsyStr userId then
    .unauthorized
  else
    match body with
    | none => .badRequest "Invalid JSON in request body"
    | some b =>
      if feedbackInvalid b.feedback then
        .badRequest "Feedback text is required and must be a non-empty string"
      else
        match b.feedback with
        | some (.str s) =>
          if s.length > 10000 then
            .badRequest "Feedback text must not exceed 10,000 characters"
          else if b.tags = some .notArr then
            .badRequest "Tags must be an array of strings"
          else
            .accepted
              { userId := userId.getD ""
                feedback := jsTrim s
                timestamp := now
                tags := tagsOrEmpty b.tags
                feedbackType := jsOr b.feedbackType "general" }
              msgId "processing"
        | _ => .badRequest "unreachable"

/-- Messages published to the Dispatch Channel by one Intake invocation
(exactly the envelope of an `accepted` outcome; nothing otherwise). -/
def publishedMessages (r : PostResult) : List Envelope :=
  match r with
  | .accepted e _ _ => [e]
  | _ => []

/-- Whether an Intake outcome is a 400 response. -/
def isBadRequest (r : PostResult) : Bool :=
  match r with
  | .badRequest _ => true
  | _ => false

/-- The parsed request body of the update handler: the whitelisted fields,
each independently absent or present (request bodies are well-typed: a
present `tags` is an array, so the source's `Array.isArray` guard holds). -/
structure UpdateBody where
  completed : Option Bool
  tags : Option (List String)
  recommendations : Option (List RecItem)
  feedbackType : Option String
  deriving Repr, DecidableEq

/-- Result of the update handler's core (after the auth / path / body-parse
guards): 404, 400, or 200 with the `ALL_NEW` attributes. -/
inductive UpdateResult where
  | notFound
  | badRequest
  | ok (updated : StoredRecord)
  deriving Repr, DecidableEq

/-- DynamoDB `GetCommand` on the table key `(userId, timestamp)`. -/
def findRec (store : List StoredRecord) (userId : String) (timestamp : Nat) :
    Option StoredRecord :=
  store.find? (fun r => r.userId == userId && r.timestamp == timestamp)

/-- Whether any whitelisted field is present in the body (the source counts
update expressions and rejects when only `updatedAt` would be set). -/
def hasWhitelistedField (b : UpdateBody) : Bool :=
  b.completed.isSome || b.tags.isSome || b.recommendations.isSome ||
    b.feedbackType.isSome

/-- The record produced by the `UpdateCommand`: each supplied whitelisted
field overwrites the stored one, `updatedAt` is always refreshed. -/
def applyUpdate (now : Nat) (item : StoredRecord) (b : UpdateBody) : StoredRecord :=
  { item with
    completed := b.completed.getD item.completed
    tags := b.tags.getD item.tags
    recommendations := b.recommendations.getD item.recommendations
    feedbackType := b.feedbackType.getD item.feedbackType
    updatedAt := now }

/-- updateRecommendation.js `exports.handler`, after the 401 / timestamp /
body-parse guards: `GetCommand` first (404 if absent), then the
whitelisted-field count (400 if none), then `UpdateCommand` with
`ReturnValues: ALL_NEW`.  Returns the result together with the store after
the call (unchanged except for the updated item). -/
def updateRecommendation (now : Nat) (store : List StoredRecord)
    (userId : String) (timestamp : Nat) (b : UpdateBody) :
    UpdateResult × List StoredRecord :=
  match findRec store userId timestamp with
  | none => (.notFound, store)
  | some item =>
    if hasWhitelistedField b then
      let updated := applyUpdate now item b
      (.ok updated,
       store.map (fun r =>
         if r.userId == userId && r.timestamp == timestamp then updated else r))
    else
      (.badRequest, store)

/-- The query parameters of the search handler, as destructured from
`event.queryStringParameters` (all optional strings; `priority` is
destructured by the source but never used). -/
structure SearchQuery where
  search : Option String
  tags : Option String
  completed : Option String
  feedbackType : Option String
  priority : Option String
  fromDate : Option String
  toDate : Option String
  deriving Repr, DecidableEq

/-- The `filters` echo of the search response (the source echoes exactly
these six parameters; `priority` is not among them). -/
structure FiltersEcho where
  search : Option String
  tags : Option String
  completed : Option String
  feedbackType : Option String
  fromDate : Option String
  toDate : Option String
  deriving Repr, DecidableEq

/-- The 200 body of the search handler. -/
structure SearchResponse where
  recommendations : List StoredRecord
  count : Nat
  filters : FiltersEcho
  deriving Repr, DecidableEq

/-- JS `String.prototype.split` on a single-character separator, on the
character list of the string (`"".split(',')` gives `[""]`). -/
def splitOnChar (c : Char) : List Char → List (List Char)
  | [] => [[]]
  | a :: t =>
    match splitOnChar c t with
    | [] => [[a]]
    | h :: r => if a = c then [] :: h :: r else (a :: h) :: r

/-- JS `s.split(c)` for a one-character separator. -/
def jsSplit (c : Char) (s : String) : List String :=
  (splitOnChar c s.data).map String.mk

/-- JS `tags.split(',').map(t => t.trim()).filter(t => t)`. -/
def splitTags (tags : String) : List String :=
  ((jsSplit ',' tags).map jsTrim).filter (fun t => ¬ t.isEmpty)

/-- `#timestamp >= :fromTimestamp` (pushed only when `fromDate` is truthy
and parses to a non-NaN time). -/
def fromFilter (parseDate : String → Option Nat) (q : SearchQuery) :
    List (StoredRecord → Bool) :=
  match q.fromDate with
  | some s =>
    if s.isEmpty then []
    else match parseDate s with
         | some t => [fun r => t ≤ r.timestamp]
         | none => []
  | none => []

/-- `#timestamp <= :toTimestamp` (pushed only when `toDate` is truthy and
parses to a non-NaN time). -/
def toFilter (parseDate : String → Option Nat) (q : SearchQuery) :
    List (StoredRecord → Bool) :=
  match q.toDate with
  | some s =>
    if s.isEmpty then []
    else match parseDate s with
         | some t => [fun r => r.timestamp ≤ t]
         | none => []
  | none => []

/-- `#feedbackType = :feedbackType` (pushed only when truthy). -/
def typeFilter (q : SearchQuery) : List (StoredRecord → Bool) :=
  match q.feedbackType with
  | some s => if s.isEmpty then [] else [fun r => r.feedbackType == s]
  | none => []

/-- `#completed = :completed` (pushed whenever the parameter is present,
compared against `completed === 'true'`). -/
def completedFilter (q : SearchQuery) : List (StoredRecord → Bool) :=
  match q.completed with
  | some s => [fun r => r.completed == (s == "true")]
  | none => []

/-- The OR of `contains(#tags, :tagN)` conditions (pushed only when the
`tags` parameter is truthy and splits into at least one nonempty tag);
DynamoDB `contains` on a list attribute is membership. -/
def tagsFilter (q : SearchQuery) : List (StoredRecord → Bool) :=
  match q.tags with
  | some s =>
    if s.isEmpty then []
    else
      let tagArray := splitTags s
      if tagArray.isEmpty then []
      else [fun r => tagArray.any (fun tag => r.tags.contains tag)]
  | none => []

def filterExpressions (parseDate : String → Option Nat) (q : SearchQuery) :
    List (StoredRecord → Bool) :=
  fromFilter parseDate q ++ toFilter parseDate q ++ typeFilter q ++
    completedFilter q ++ tagsFilter q

/-- `FilterExpression = filterExpressions.join(' AND ')`: a record passes
the store-level query iff it satisfies every accumulated expression. -/
def matchesFilters (parseDate : String → Option Nat) (q : SearchQuery)
    (r : StoredRecord) : Bool :=
  (filterExpressions parseDate q).all (fun f => f r)

/-- Substring test on character lists (JS `String.prototype.includes`). -/
def hasSubstr : List Char → List Char → Bool
  | n, [] => n.isEmpty
  | n, c :: t => n.isPrefixOf (c :: t) || hasSubstr n t

/-- JS `haystack.includes(needle)`. -/
def jsIncludes (haystack needle : String) : Bool :=
  hasSubstr needle.data haystack.data

/-- JSON.stringify of the `recommendations` attribute (shape faithful to a
JSON array of the item objects). -/
def stringifyRecs (recs : List RecItem) : String :=
  "[" ++ String.intercalate ","
    (recs.map (fun rec =>
      "\x7b\"id\":\"" ++ rec.id ++ "\",\"title\":\"" ++ rec.title ++
      "\",\"description\":\"" ++ rec.description ++ "\",\"priority\":\"" ++
      rec.priority ++ "\",\"category\":\"" ++ rec.category ++ "\"\x7d")) ++ "]"

/-- The in-memory text-search post-filter of the search handler. -/
def textMatches (searchLower : String) (r : StoredRecord) : Bool :=
  jsIncludes (stringifyRecs r.recommendations).toLower searchLower ||
    jsIncludes r.originalFeedback.toLower searchLower

/-- Result of the search handler: 401 or 200 with the response body. -/
inductive SearchResult where
  | unauthorized
  | ok (resp : SearchResponse)
  deriving Repr, DecidableEq

/-- The search handler (src/unnamed/part_001 `exports.handler`): 401 on a
falsy caller identity; otherwise the key query restricted to the owner
(`items` are that query's results) is narrowed by the built filter
expression, then by the optional in-memory text search, and returned with
the count and the filters echo. -/
def searchHandler (parseDate : String → Option Nat) (userId : Option String)
    (q : SearchQuery) (items : List StoredRecord) : SearchResult :=
  if falsyStr userId then
    .unauthorized
  else
    let afterStore := items.filter (matchesFilters parseDate q)
    let afterText :=
      match q.search with
      | some s =>
        if s.isEmpty ∨ (jsTrim s).isEmpty then afterStore
        else afterStore.filter (textMatches s.toLower)
      | none => afterStore
    .ok { recommendations := afterText
          count := afterText.length
          filters := { search := q.search, tags := q.tags,
                       completed := q.completed, feedbackType := q.feedbackType,
                       fromDate := q.fromDate, toDate := q.toDate } }

/-- A key projected by the bulk-delete query (`ProjectionExpression:
userId, #ts`). -/
structure RecKey where
  userId : String
  timestamp : Nat
  deriving Repr, DecidableEq

/-- The 200 body of the bulk-delete handler, together with the batched
`BatchWriteCommand` calls it issued (each a list of delete keys). -/
structure DeleteResponse where
  message : String
  deletedCount : Nat
  batches : List (List RecKey)
  deriving Repr, DecidableEq

/-- The bulk-delete batching loop (`for (let i = 0; i < items.length;
i += batchSize)` with `slice(i, i + batchSize)`). -/
def chunkKeys (items : List RecKey) : List (List RecKey) :=
  if items.isEmpty then []
  else items.take 25 :: chunkKeys (items.drop 25)
  termination_by items.length
  decreasing_by
    cases items with
    | nil => simp_all
    | cons a t => simp only [List.length_drop, List.length_cons]; omega

/-- The bulk-delete handler (the delete lambda in getRecommendations.js),
after the 401 guard: `items` are the keys returned by the owner query;
an empty result short-circuits with `deletedCount: 0`; otherwise the keys
are deleted in batches of 25 and the total is accumulated. -/
def deleteHandler (items : List RecKey) : DeleteResponse :=
  if items.isEmpty then
    { message := "No recommendations to delete", deletedCount := 0, batches := [] }
  else
    let batches := chunkKeys items
    { message := "Recommendations deleted successfully"
      deletedCount := (batches.map List.length).sum
      batches := batches }

/-- The failure modes of the Bedrock invocation (everything the `catch` of
`generateRecommendations` can see: a thrown send/decode/parse error, or
the thrown "not an array" error). -/
def inferFails (o : InferOutcome) : Bool :=
  match o with
  | .sendFailure => true
  | .modelOutput .nonArray => true
  | .modelOutput (.arr _) => false

/-- Declarative reading of the `fromDate` filter: when `fromDate` is
present, truthy and parsable, the record's `submittedAt` is at least the
parsed bound (unparsable or falsy dates impose nothing). -/
def fromDateCond (parseDate : String → Option Nat) (q : SearchQuery)
    (r : StoredRecord) : Prop :=
  ∀ s t, q.fromDate = some s → s.isEmpty = false → parseDate s = some t →
    t ≤ r.timestamp

/-- Declarative reading of the `toDate` filter (inclusive upper bound). -/
def toDateCond (parseDate : String → Option Nat) (q : SearchQuery)
    (r : StoredRecord) : Prop :=
  ∀ s t, q.toDate = some s → s.isEmpty = false → parseDate s = some t →
    r.timestamp ≤ t

/-- Declarative reading of the category filter: exact equality when the
parameter is truthy. -/
def categoryCond (q : SearchQuery) (r : StoredRecord) : Prop :=
  ∀ s, q.feedbackType = some s → s.isEmpty = false → r.feedbackType = s

/-- Declarative reading of the completed filter: exact boolean match
against `completed === 'true'` whenever the parameter is present. -/
def completedCond (q : SearchQuery) (r : StoredRecord) : Prop :=
  ∀ s, q.completed = some s → r.completed = (s == "true")

/-- Declarative reading of the tags filter: when the parameter is truthy
and yields at least one tag, the record contains AT LEAST ONE listed tag
(OR-match). -/
def tagsCond (q : SearchQuery) (r : StoredRecord) : Prop :=
  ∀ s, q.tags = some s → s.isEmpty = false → splitTags s ≠ [] →
    ∃ tag ∈ splitTags s, tag ∈ r.tags

/-- A parsed submission envelope with both required fields present. -/
def sampleMsg (uid : String) : FeedbackMessage :=
  { userId := some uid, feedback := some "good stuff", timestamp := some 5,
    feedbackType := none, tags := none }

/-- A batch message whose inference call returns a valid one-item array. -/
def sampleGoodRecord (id uid : String) : SqsRecord :=
  { messageId := id, parse := .ok (sampleMsg uid),
    infer := .modelOutput (.arr [⟨some "T", some "D", some "high", none⟩]) }

/-- A batch message whose inference call yields a non-array JSON value. -/
def sampleNonArrayRecord (id uid : String) : SqsRecord :=
  { messageId := id, parse := .ok (sampleMsg uid),
    infer := .modelOutput .nonArray }

/-- A batch message whose inner payload is unparsable. -/
def sampleMalformedRecord (id : String) : SqsRecord :=
  { messageId := id, parse := .malformed, infer := .sendFailure }

/-- A batch message that parses but carries no `userId`. -/
def sampleMissingOwnerRecord : SqsRecord :=
  { messageId := "m0"
    parse := .ok { userId := none, feedback := some "f", timestamp := none,
                   feedbackType := none, tags := none }
    infer := .sendFailure }

/-- A feedback text of raw length 10001 whose trimmed length is 1. -/
def bigFeedback : String :=
  String.mk ('a' :: List.replicate 10000 ' ')

/-- A stored record used as a concrete query-surface input. -/
def sampleStored : StoredRecord :=
  { userId := "u", timestamp := 10, feedbackType := "general",
    originalFeedback := "f", recommendations := [], generatedAt := 0,
    modelId := "m", tags := ["a"], completed := false, updatedAt := 0 }

/-- A concrete query that filters on tags "a,b" only. -/
def sampleTagQuery : SearchQuery :=
  { search := none, tags := some "a,b", completed := none,
    feedbackType := none, priority := none, fromDate := none, toDate := none }

/-- The search response for `sampleTagQuery` over `[sampleStored]`. -/
def sampleTagResp : SearchResponse :=
  { recommendations := [sampleStored]
    count := 1
    filters := { search := none, tags := some "a,b", completed := none,
                 feedbackType := none, fromDate := none, toDate := none } }

/-- 57 concrete keys belonging to one owner. -/
def sampleKeys : List RecKey :=
  (List.range 57).map (fun i => { userId := "u", timestamp := i })

/-- The envelope published by a successful Intake invocation (the SNS
message of postFeedback.js). -/
def intakeEnvelope (now : Nat) (userId : Option String) (b : PostBody)
    (s : String) : Envelope :=
  { userId := userId.getD ""
    feedback := jsTrim s
    timestamp := now
    tags := tagsOrEmpty b.tags
    feedbackType := jsOr b.feedbackType "general" }

/-- Whether a batch invocation completed without re-throwing. -/
def isBatchOk (e : Except BatchAbort (List StoredRecord × WorkerResults)) : Bool :=
  match e with
  | .ok _ => true
  | .error _ => false

/-- The store contents after a batch invocation (persisted-so-far when the
batch aborted). -/
def storeOf (e : Except BatchAbort (List StoredRecord × WorkerResults)) :
    List StoredRecord :=
  match e with
  | .ok (s, _) => s
  | .error a => a.store

/-- The concrete batch of claim C2: an unparsable first message followed
by a well-formed second message. -/
def C2batch : List SqsRecord :=
  [sampleMalformedRecord "m1", sampleGoodRecord "m2" "u2"]

/-- The concrete batch of claim C1: three well-formed messages, the third
of which gets a non-array model response. -/
def C1batch : List SqsRecord :=
  [sampleGoodRecord "m1" "u1", sampleGoodRecord "m2" "u2",
   sampleNonArrayRecord "m3" "u3"]

/-- Claim C1 is false on the code: in a batch of 3 messages where message
3's model response is a non-array, the handler does NOT raise — the batch
completes, all three messages are persisted, and message 3 IS persisted
with the fallback recommendation (the "not an array" error is thrown
inside the same `try` whose `catch` returns the fallback). -/
theorem C1_counterexample :
    isBatchOk (workerHandler 0 "model" C1batch []) = true ∧
    (storeOf (workerHandler 0 "model" C1batch [])).length = 3 ∧
    (storeOf (workerHandler 0 "model" C1batch [])).map
        StoredRecord.recommendations =
      [[normalizeRec 0 0 ⟨some "T", some "D", some "high", none⟩],
       [normalizeRec 0 0 ⟨some "T", some "D", some "high", none⟩],
       [fallbackRec 0]] := by
  refine ⟨rfl, rfl, rfl⟩

/-- Claim C1 (amended): a non-array model response never propagates out of
`generateRecommendations` — the `catch` swallows it and yields the single
fallback item, and the per-message loop persists that fallback record and
continues exactly as for a successful enrichment. -/
theorem C1_amended (now : Nat) (modelId : String) (r : SqsRecord)
    (rest : List SqsRecord) (store : List StoredRecord)
    (results : WorkerResults) (msg : FeedbackMessage)
    (hp : r.parse = .ok msg) (hu : falsyStr msg.userId = false)
    (hf : falsyStr msg.feedback = false)
    (hi : r.infer = .modelOutput .nonArray) :
    generateRecommendations now r.infer = [fallbackRec now] ∧
    runBatch now modelId (r :: rest) store results =
      runBatch now modelId rest
        (store ++ [mkPutItem now modelId msg (msg.userId.getD "")
          (msg.feedback.getD "") [fallbackRec now]])
        (pushSuccess results r.messageId (msg.userId.getD "")) := by
  have hgen : generateRecommendations now r.infer = [fallbackRec now] := by
    rw [hi]; rfl
  refine ⟨hgen, ?_⟩
  simp only [runBatch, hp, hu, hf]
  simp [hgen]

/-- Witness for the amended claim C1 at a concrete batch message. -/
theorem C1_amended_witness :
    generateRecommendations 0 (sampleNonArrayRecord "m3" "u3").infer =
      [fallbackRec 0] ∧
    runBatch 0 "model" [sampleNonArrayRecord "m3" "u3"] [] emptyResults =
      runBatch 0 "model" []
        ([] ++ [mkPutItem 0 "model" (sampleMsg "u3") "u3" "good stuff"
          [fallbackRec 0]])
        (pushSuccess emptyResults "m3" "u3") :=
  C1_amended 0 "model" (sampleNonArrayRecord "m3" "u3") [] [] emptyResults
    (sampleMsg "u3") rfl (by decide) (by decide) rfl

/-- Claim C2 is false on the code for the unparsable case: a message whose
inner payload is unparsable is pushed to `failed` and then RE-THROWN by
the per-message `catch`, aborting the batch — the loop does not continue
(the following well-formed message is never processed, the store stays
empty). -/
theorem C2_counterexample :
    workerHandler 0 "model" C2batch [] =
      .error { store := []
               results := { successful := []
                            failed := [("m1", "Unexpected token")] }
               messageId := "m1" } := by
  rfl

/-- Claim C2 (amended): the two step-1 failure shapes behave differently.
A parsed message missing `owner` or `feedback` is absorbed locally (pushed
to `failed`, nothing persisted for it, the loop continues); an unparsable
inner payload is pushed to `failed` and re-raised, aborting the whole
batch with the store as persisted so far. -/
theorem C2_amended (now : Nat) (modelId : String) (r : SqsRecord)
    (rest : List SqsRecord) (store : List StoredRecord)
    (results : WorkerResults) :
    (r.parse = .malformed →
      runBatch now modelId (r :: rest) store results =
        .error { store := store
                 results := pushFailed results r.messageId "Unexpected token"
                 messageId := r.messageId }) ∧
    (∀ msg, r.parse = .ok msg →
      (falsyStr msg.userId = true ∨ falsyStr msg.feedback = true) →
      runBatch now modelId (r :: rest) store results =
        runBatch now modelId rest store
          (pushFailed results r.messageId "Invalid message format")) := by
  constructor
  · intro h
    simp [runBatch, h]
  · intro msg h hor
    have hcond : (falsyStr msg.userId ∨ falsyStr msg.feedback) := by
      rcases hor with h2 | h2 <;> simp [h2]
    simp [runBatch, h, hcond]

/-- Witness for the amended claim C2 at concrete messages: the unparsable
case aborts; the missing-field case continues. -/
theorem C2_amended_witness :
    (runBatch 0 "model" [sampleMalformedRecord "m1"] [] emptyResults =
      .error { store := []
               results := pushFailed emptyResults "m1" "Unexpected token"
               messageId := "m1" }) ∧
    (runBatch 0 "model" [sampleMissingOwnerRecord] [] emptyResults =
      runBatch 0 "model" [] []
        (pushFailed emptyResults "m0" "Invalid message format")) :=
  ⟨(C2_amended 0 "model" (sampleMalformedRecord "m1") [] [] emptyResults).1 rfl,
   (C2_amended 0 "model" sampleMissingOwnerRecord [] [] emptyResults).2
      _ rfl (Or.inl (by decide))⟩

/-- Claim C3: ANY failure of the inference call (a thrown send/timeout/
parse error, or a non-array response) never fails the message: the Worker
synthesizes exactly the single fallback item, persists the record as if
enrichment succeeded (with `completed = false` and `recommendations`
equal to exactly the fallback single-item array), and the loop continues
to the rest of the batch. -/
theorem C3_inference_failure_fallback (now : Nat) (modelId : String)
    (r : SqsRecord) (rest : List SqsRecord) (store : List StoredRecord)
    (results : WorkerResults) (msg : FeedbackMessage)
    (hp : r.parse = .ok msg) (hu : falsyStr msg.userId = false)
    (hf : falsyStr msg.feedback = false) (hi : inferFails r.infer = true) :
    generateRecommendations now r.infer = [fallbackRec now] ∧
    (mkPutItem now modelId msg (msg.userId.getD "") (msg.feedback.getD "")
        [fallbackRec now]).recommendations = [fallbackRec now] ∧
    (mkPutItem now modelId msg (msg.userId.getD "") (msg.feedback.getD "")
        [fallbackRec now]).completed = false ∧
    runBatch now modelId (r :: rest) store results =
      runBatch now modelId rest
        (store ++ [mkPutItem now modelId msg (msg.userId.getD "")
          (msg.feedback.getD "") [fallbackRec now]])
        (pushSuccess results r.messageId (msg.userId.getD "")) := by
  have hgen : generateRecommendations now r.infer = [fallbackRec now] := by
    cases hr : r.infer with
    | sendFailure => rfl
    | modelOutput v =>
      cases v with
      | nonArray => rfl
      | arr items => rw [hr] at hi; simp [inferFails] at hi
  refine ⟨hgen, rfl, rfl, ?_⟩
  simp only [runBatch, hp, hu, hf]
  simp [hgen]

/-- Witness for claim C3 at a concrete batch message with a thrown
inference error. -/
theorem C3_inference_failure_fallback_witness :
    generateRecommendations 3
        (SqsRecord.mk "m7" (.ok (sampleMsg "u7")) .sendFailure).infer =
      [fallbackRec 3] ∧
    (mkPutItem 3 "model" (sampleMsg "u7") "u7" "good stuff"
        [fallbackRec 3]).recommendations = [fallbackRec 3] ∧
    (mkPutItem 3 "model" (sampleMsg "u7") "u7" "good stuff"
        [fallbackRec 3]).completed = false ∧
    runBatch 3 "model" [SqsRecord.mk "m7" (.ok (sampleMsg "u7")) .sendFailure]
        [] emptyResults =
      runBatch 3 "model" []
        ([] ++ [mkPutItem 3 "model" (sampleMsg "u7") "u7" "good stuff"
          [fallbackRec 3]])
        (pushSuccess emptyResults "m7" "u7") :=
  C3_inference_failure_fallback 3 "model"
    (SqsRecord.mk "m7" (.ok (sampleMsg "u7")) .sendFailure) [] [] emptyResults
    (sampleMsg "u7") rfl (by decide) (by decide) rfl

/-- Claim C4: the update operation returns `NotFound` (mutating nothing)
when no record exists at the `(owner, submittedAt)` key, `BadRequest`
when none of the whitelisted fields `{completed, tags, recommendations,
feedbackType}` is present, and otherwise applies exactly the supplied
whitelisted fields plus an always-refreshed `updatedAt`, leaves every
other field unchanged, returns the full updated record, and rewrites only
the record at that key. -/
theorem C4_update_contract (now : Nat) (store : List StoredRecord)
    (userId : String) (timestamp : Nat) (b : UpdateBody) :
    (findRec store userId timestamp = none →
      updateRecommendation now store userId timestamp b = (.notFound, store)) ∧
    (∀ item, findRec store userId timestamp = some item →
      hasWhitelistedField b = false →
      updateRecommendation now store userId timestamp b = (.badRequest, store)) ∧
    (∀ item, findRec store userId timestamp = some item →
      hasWhitelistedField b = true →
      (updateRecommendation now store userId timestamp b).1 =
        .ok (applyUpdate now item b) ∧
      (applyUpdate now item b).completed = b.completed.getD item.completed ∧
      (applyUpdate now item b).tags = b.tags.getD item.tags ∧
      (applyUpdate now item b).recommendations =
        b.recommendations.getD item.recommendations ∧
      (applyUpdate now item b).feedbackType =
        b.feedbackType.getD item.feedbackType ∧
      (applyUpdate now item b).updatedAt = now ∧
      (applyUpdate now item b).userId = item.userId ∧
      (applyUpdate now item b).timestamp = item.timestamp ∧
      (applyUpdate now item b).originalFeedback = item.originalFeedback ∧
      (applyUpdate now item b).generatedAt = item.generatedAt ∧
      (applyUpdate now item b).modelId = item.modelId ∧
      (updateRecommendation now store userId timestamp b).2 =
        store.map (fun r =>
          if r.userId == userId && r.timestamp == timestamp
          then applyUpdate now item b else r)) := by
  refine ⟨?_, ?_, ?_⟩
  · intro h
    simp [updateRecommendation, h]
  · intro item h hw
    simp [updateRecommendation, h, hw]
  · intro item h hw
    refine ⟨?_, rfl, rfl, rfl, rfl, rfl, rfl, rfl, rfl, rfl, rfl, ?_⟩ <;>
      simp [updateRecommendation, h, hw]

/-- Witness for claim C4: 404 on an empty store; 200 with the updated
record when the key exists and `completed` is supplied. -/
theorem C4_update_contract_witness :
    (updateRecommendation 9 [] "u" 1
        { completed := some true, tags := none, recommendations := none,
          feedbackType := none } = (.notFound, [])) ∧
    ((updateRecommendation 9 [sampleStored] "u" 10
        { completed := some true, tags := none, recommendations := none,
          feedbackType := none }).1 =
      .ok (applyUpdate 9 sampleStored
        { completed := some true, tags := none, recommendations := none,
          feedbackType := none })) :=
  ⟨(C4_update_contract 9 [] "u" 1 _).1 rfl,
   ((C4_update_contract 9 [sampleStored] "u" 10 _).2.2 sampleStored
      (by decide) (by decide)).1⟩

lemma dropWhile_ws_replicate (n : Nat) (l : List Char) :
    List.dropWhile isJsWs (List.replicate n ' ' ++ l) =
      List.dropWhile isJsWs l := by
  induction n with
  | zero => simp
  | succ n ih =>
    rw [List.replicate_succ, List.cons_append, List.dropWhile_cons]
    simp only [show isJsWs ' ' = true from rfl, if_true, ih]

set_option maxRecDepth 2000 in
lemma jsTrim_bigFeedback : jsTrim bigFeedback = "a" := by
  have ha : isJsWs 'a' = false := by decide
  show String.mk (((((String.mk ('a' :: List.replicate 10000 ' ')).data.dropWhile
    isJsWs).reverse).dropWhile isJsWs).reverse) = "a"
  rw [show (String.mk ('a' :: List.replicate 10000 ' ')).data =
    'a' :: List.replicate 10000 ' ' from rfl]
  rw [List.dropWhile_cons, ha]
  simp only [Bool.false_eq_true, if_false, List.reverse_cons,
    List.reverse_replicate, dropWhile_ws_replicate, List.dropWhile_cons, ha]
  rfl

lemma bigFeedback_length : bigFeedback.length = 10001 := by
  show ('a' :: List.replicate 10000 ' ').length = 10001
  rw [List.length_cons, List.length_replicate]

/-- Claim C5: a submission whose feedback is missing, not a string, empty
after trimming, or longer than 10,000 characters, or whose `tags` is
present but not an array, yields `BadRequest` with nothing published. -/
theorem C5_invalid_submission_rejected (now : Nat) (msgId : String)
    (userId : Option String) (b : PostBody)
    (hauth : falsyStr userId = false)
    (hbad : b.feedback = none ∨ b.feedback = some .nonString ∨
      (∃ s, b.feedback = some (.str s) ∧
        (jsTrim s = "" ∨ s.length > 10000)) ∨
      b.tags = some .notArr) :
    isBadRequest (postHandler now msgId userId (some b)) = true ∧
    publishedMessages (postHandler now msgId userId (some b)) = [] := by
  rcases hbad with h | h | ⟨s, hs, hl⟩ | h
  · constructor <;>
      simp [postHandler, hauth, feedbackInvalid, h, isBadRequest,
        publishedMessages]
  · constructor <;>
      simp [postHandler, hauth, feedbackInvalid, h, isBadRequest,
        publishedMessages]
  · rcases hl with he | hg
    · have hemp : (jsTrim s).isEmpty = true := by rw [he]; rfl
      constructor <;>
        simp [postHandler, hauth, feedbackInvalid, hs, hemp, isBadRequest,
          publishedMessages]
    · by_cases he : (jsTrim s).isEmpty
      · constructor <;>
          simp [postHandler, hauth, feedbackInvalid, hs, he, isBadRequest,
            publishedMessages]
      · constructor <;>
          simp [postHandler, hauth, feedbackInvalid, hs, he, hg, isBadRequest,
            publishedMessages]
  · cases hf : b.feedback with
    | none =>
      constructor <;>
        simp [postHandler, hauth, feedbackInvalid, hf, isBadRequest,
          publishedMessages]
    | some v =>
      cases v with
      | nonString =>
        constructor <;>
          simp [postHandler, hauth, feedbackInvalid, hf, isBadRequest,
            publishedMessages]
      | str s =>
        by_cases he : (jsTrim s).isEmpty
        · constructor <;>
            simp [postHandler, hauth, feedbackInvalid, hf, he, isBadRequest,
              publishedMessages]
        · by_cases hg : s.length > 10000
          · constructor <;>
              simp [postHandler, hauth, feedbackInvalid, hf, he, hg,
                isBadRequest, publishedMessages]
          · constructor <;>
              simp [postHandler, hauth, feedbackInvalid, hf, he, hg, h,
                isBadRequest, publishedMessages]

/-- Witness for claim C5 at a concrete submission with missing feedback. -/
theorem C5_invalid_submission_rejected_witness :
    isBadRequest (postHandler 0 "mid" (some "u")
      (some { feedback := none, tags := none, feedbackType := none })) = true ∧
    publishedMessages (postHandler 0 "mid" (some "u")
      (some { feedback := none, tags := none, feedbackType := none })) = [] :=
  C5_invalid_submission_rejected 0 "mid" (some "u") _ (by decide) (Or.inl rfl)

/-- Claim C6 is false on the code as stated: a feedback text of raw length
10001 whose trimmed length is 1 (so a trimmed length within [1,10000])
with a valid caller identity is rejected with `BadRequest`, and nothing is
published — the 10,000-character limit is evaluated on the RAW text. -/
theorem C6_counterexample :
    1 ≤ (jsTrim bigFeedback).length ∧ (jsTrim bigFeedback).length ≤ 10000 ∧
    postHandler 0 "mid" (some "u")
        (some { feedback := some (.str bigFeedback), tags := none,
                feedbackType := none }) =
      .badRequest "Feedback text must not exceed 10,000 characters" ∧
    publishedMessages (postHandler 0 "mid" (some "u")
        (some { feedback := some (.str bigFeedback), tags := none,
                feedbackType := none })) = [] := by
  have hemp : (jsTrim bigFeedback).isEmpty = false := by
    rw [jsTrim_bigFeedback]; rfl
  have hgt : bigFeedback.length > 10000 := by
    rw [bigFeedback_length]; decide
  have hu : falsyStr (some "u") = false := by decide
  refine ⟨by rw [jsTrim_bigFeedback]; decide, by rw [jsTrim_bigFeedback]; decide,
    ?_, ?_⟩ <;>
    simp [postHandler, feedbackInvalid, hu, hemp, hgt, publishedMessages]

/-- Claim C6 (amended): for every submission with a valid caller identity,
a parsed body, a feedback text whose RAW length is at most 10,000 and
whose trimmed length is at least 1, and `tags` absent or an array, Intake
publishes exactly one envelope `{owner, trimmed feedback, now, tags or
empty, category or "general"}` and returns Accepted with the
channel-assigned message identifier and status `"processing"`. -/
theorem C6_amended (now : Nat) (msgId : String) (userId : Option String)
    (b : PostBody) (s : String)
    (hauth : falsyStr userId = false)
    (hf : b.feedback = some (.str s))
    (ht : 1 ≤ (jsTrim s).length)
    (hraw : s.length ≤ 10000)
    (htags : b.tags ≠ some .notArr) :
    postHandler now msgId userId (some b) =
      .accepted (intakeEnvelope now userId b s) msgId "processing" ∧
    publishedMessages (postHandler now msgId userId (some b)) =
      [intakeEnvelope now userId b s] := by
  have hemp : (jsTrim s).isEmpty = false := by
    cases h0 : (jsTrim s).isEmpty
    · rfl
    · rw [String.isEmpty_iff] at h0
      rw [h0] at ht
      simp [String.length] at ht
  have hng : ¬ s.length > 10000 := by omega
  constructor <;>
    simp [postHandler, hauth, feedbackInvalid, hf, hemp, hng, htags,
      intakeEnvelope, publishedMessages]

/-- Witness for the amended claim C6 at a concrete valid submission. -/
theorem C6_amended_witness :
    postHandler 4 "mid" (some "u")
        (some { feedback := some (.str "hi"), tags := none,
                feedbackType := none }) =
      .accepted (intakeEnvelope 4 (some "u")
        { feedback := some (.str "hi"), tags := none, feedbackType := none }
        "hi") "mid" "processing" ∧
    publishedMessages (postHandler 4 "mid" (some "u")
        (some { feedback := some (.str "hi"), tags := none,
                feedbackType := none })) =
      [intakeEnvelope 4 (some "u")
        { feedback := some (.str "hi"), tags := none, feedbackType := none }
        "hi"] :=
  C6_amended 4 "mid" (some "u") _ "hi" (by decide) rfl (by decide) (by decide)
    (by decide)

/-- Claim C10: the 10,000-character limit is evaluated on the raw,
un-trimmed feedback text — an input whose trimmed length lies in
[1,10000] but whose raw length exceeds 10,000 characters is rejected with
`BadRequest` and nothing is published. -/
theorem C10_raw_length_limit (now : Nat) (msgId : String)
    (userId : Option String) (b : PostBody) (s : String)
    (hauth : falsyStr userId = false)
    (hf : b.feedback = some (.str s))
    (ht1 : 1 ≤ (jsTrim s).length)
    (ht2 : (jsTrim s).length ≤ 10000)
    (hraw : s.length > 10000) :
    postHandler now msgId userId (some b) =
      .badRequest "Feedback text must not exceed 10,000 characters" ∧
    publishedMessages (postHandler now msgId userId (some b)) = [] := by
  have hemp : (jsTrim s).isEmpty = false := by
    cases h0 : (jsTrim s).isEmpty
    · rfl
    · rw [String.isEmpty_iff] at h0
      rw [h0] at ht1
      simp [String.length] at ht1
  constructor <;>
    simp [postHandler, hauth, feedbackInvalid, hf, hemp, hraw,
      publishedMessages]

/-- Witness for claim C10 at the concrete 10001-character padded text. -/
theorem C10_raw_length_limit_witness :
    postHandler 0 "mid" (some "u")
        (some { feedback := some (.str bigFeedback), tags := none,
                feedbackType := none }) =
      .badRequest "Feedback text must not exceed 10,000 characters" ∧
    publishedMessages (postHandler 0 "mid" (some "u")
        (some { feedback := some (.str bigFeedback), tags := none,
                feedbackType := none })) = [] :=
  C10_raw_length_limit 0 "mid" (some "u") _ bigFeedback (by decide) rfl
    (by rw [jsTrim_bigFeedback]; decide) (by rw [jsTrim_bigFeedback]; decide)
    (by rw [bigFeedback_length]; decide)

lemma fromFilter_all (pd : String → Option Nat) (q : SearchQuery)
    (r : StoredRecord) :
    ((fromFilter pd q).all (fun f => f r) = true) ↔ fromDateCond pd q r := by
  unfold fromFilter fromDateCond
  cases q.fromDate with
  | none => simp
  | some s =>
    by_cases he : s.isEmpty
    · simp only [he]
      simp only [if_true, List.all_nil, true_iff]
      rintro s1 t h1 h2 h3
      injection h1 with h1
      subst h1
      rw [he] at h2
      simp at h2
    · have he2 : s.isEmpty = false := by simpa using he
      cases hp : pd s with
      | none =>
        simp only [he2, Bool.false_eq_true, if_false, hp, List.all_nil, true_iff]
        rintro s1 t h1 h2 h3
        injection h1 with h1
        subst h1
        rw [hp] at h3
        simp at h3
      | some t =>
        simp only [he2, Bool.false_eq_true, if_false, hp, List.all_cons,
          List.all_nil, Bool.and_true, decide_eq_true_eq]
        constructor
        · rintro hle s1 t2 h1 h2 h3
          injection h1 with h1
          subst h1
          rw [hp] at h3
          injection h3 with h4
          exact h4 ▸ hle
        · intro hall
          exact hall s t rfl he2 hp

lemma toFilter_all (pd : String → Option Nat) (q : SearchQuery)
    (r : StoredRecord) :
    ((toFilter pd q).all (fun f => f r) = true) ↔ toDateCond pd q r := by
  unfold toFilter toDateCond
  cases q.toDate with
  | none => simp
  | some s =>
    by_cases he : s.isEmpty
    · simp only [he]
      simp only [if_true, List.all_nil, true_iff]
      rintro s1 t h1 h2 h3
      injection h1 with h1
      subst h1
      rw [he] at h2
      simp at h2
    · have he2 : s.isEmpty = false := by simpa using he
      cases hp : pd s with
      | none =>
        simp only [he2, Bool.false_eq_true, if_false, hp, List.all_nil, true_iff]
        rintro s1 t h1 h2 h3
        injection h1 with h1
        subst h1
        rw [hp] at h3
        simp at h3
      | some t =>
        simp only [he2, Bool.false_eq_true, if_false, hp, List.all_cons,
          List.all_nil, Bool.and_true, decide_eq_true_eq]
        constructor
        · rintro hle s1 t2 h1 h2 h3
          injection h1 with h1
          subst h1
          rw [hp] at h3
          injection h3 with h4
          exact h4 ▸ hle
        · intro hall
          exact hall s t rfl he2 hp

lemma typeFilter_all (q : SearchQuery) (r : StoredRecord) :
    ((typeFilter q).all (fun f => f r) = true) ↔ categoryCond q r := by
  unfold typeFilter categoryCond
  cases q.feedbackType with
  | none => simp
  | some s =>
    by_cases he : s.isEmpty
    · simp [he]
    · simp [he]

lemma completedFilter_all (q : SearchQuery) (r : StoredRecord) :
    ((completedFilter q).all (fun f => f r) = true) ↔ completedCond q r := by
  unfold completedFilter completedCond
  cases q.completed with
  | none => simp
  | some s => simp

lemma tagsFilter_all (q : SearchQuery) (r : StoredRecord) :
    ((tagsFilter q).all (fun f => f r) = true) ↔ tagsCond q r := by
  unfold tagsFilter tagsCond
  cases q.tags with
  | none => simp
  | some s =>
    by_cases he : s.isEmpty
    · simp only [he]
      simp only [if_true, List.all_nil, true_iff]
      rintro s1 h1 h2 h3
      injection h1 with h1
      subst h1
      rw [he] at h2
      simp at h2
    · have he2 : s.isEmpty = false := by simpa using he
      by_cases ht : (splitTags s).isEmpty
      · rw [List.isEmpty_iff] at ht
        simp only [he2, Bool.false_eq_true, if_false, ht, List.isEmpty_nil,
          if_true, List.all_nil, true_iff]
        rintro s1 h1 h2 h3
        injection h1 with h1
        subst h1
        exact absurd ht h3
      · have ht2 : (splitTags s).isEmpty = false := by simpa using ht
        simp only [he2, Bool.false_eq_true, if_false, ht2, List.all_cons,
          List.all_nil, Bool.and_true, List.any_eq_true, List.elem_iff]
        constructor
        · rintro hex s1 h1 h2 h3
          injection h1 with h1
          subst h1
          exact hex
        · intro hall
          refine hall s rfl he2 ?_
          intro h0
          rw [h0] at ht2
          simp at ht2

lemma matchesFilters_iff (pd : String → Option Nat) (q : SearchQuery)
    (r : StoredRecord) :
    matchesFilters pd q r = true ↔
      (fromDateCond pd q r ∧ toDateCond pd q r ∧ categoryCond q r ∧
       completedCond q r ∧ tagsCond q r) := by
  unfold matchesFilters filterExpressions
  simp only [List.all_append, Bool.and_eq_true]
  rw [fromFilter_all, toFilter_all, typeFilter_all, completedFilter_all,
    tagsFilter_all]
  tauto

lemma mem_searchHandler {pd : String → Option Nat} {userId : Option String}
    {q : SearchQuery} {items : List StoredRecord} {resp : SearchResponse}
    {x : StoredRecord} (h : searchHandler pd userId q items = .ok resp)
    (hx : x ∈ resp.recommendations) :
    matchesFilters pd q x = true := by
  by_cases hfal : falsyStr userId
  · simp [searchHandler, hfal] at h
  · simp only [searchHandler, hfal, Bool.false_eq_true, if_false] at h
    cases hs : q.search with
    | none =>
      rw [hs] at h
      simp only [SearchResult.ok.injEq] at h
      rw [← h] at hx
      exact (List.mem_filter.mp hx).2
    | some s =>
      rw [hs] at h
      simp only [SearchResult.ok.injEq] at h
      rw [← h] at hx
      by_cases hse : s.isEmpty ∨ (jsTrim s).isEmpty
      · rw [if_pos hse] at hx
        exact (List.mem_filter.mp hx).2
      · rw [if_neg hse] at hx
        exact (List.mem_filter.mp (List.mem_filter.mp hx).1).2

/-- Claim C7: the search operation combines all present filters (inclusive
date-range bounds on `submittedAt` with unparsable dates silently ignored,
category, exact completed match, tags) with logical AND, while the tags
filter itself is an OR-match — a record passes the tags filter iff it
contains at least one listed tag; in particular a search with tags "a,b"
never returns a record containing neither tag. -/
theorem C7_search_filter_semantics (pd : String → Option Nat)
    (q : SearchQuery) (r : StoredRecord) :
    (matchesFilters pd q r = true ↔
      (fromDateCond pd q r ∧ toDateCond pd q r ∧ categoryCond q r ∧
       completedCond q r ∧ tagsCond q r)) ∧
    (∀ userId items resp x, searchHandler pd userId q items = .ok resp →
      x ∈ resp.recommendations →
      matchesFilters pd q x = true ∧
      (q.tags = some "a,b" → ("a" ∈ x.tags ∨ "b" ∈ x.tags))) := by
  refine ⟨matchesFilters_iff pd q r, ?_⟩
  intro userId items resp x h hx
  have hm := mem_searchHandler h hx
  refine ⟨hm, ?_⟩
  intro htag
  have hc := (matchesFilters_iff pd q x).mp hm
  have hsp : splitTags "a,b" = ["a", "b"] := by decide
  obtain ⟨tag, htg, hmem⟩ :=
    hc.2.2.2.2 "a,b" htag (by decide) (by rw [hsp]; simp)
  rw [hsp] at htg
  have htg2 : tag = "a" ∨ tag = "b" := by simpa using htg
  rcases htg2 with rfl | rfl
  · exact Or.inl hmem
  · exact Or.inr hmem

/-- Witness for claim C7: a concrete search with tags "a,b" over a store
holding a record tagged "a". -/
theorem C7_search_filter_semantics_witness :
    matchesFilters (fun _ => none) sampleTagQuery sampleStored = true ∧
    (sampleTagQuery.tags = some "a,b" →
      ("a" ∈ sampleStored.tags ∨ "b" ∈ sampleStored.tags)) :=
  (C7_search_filter_semantics (fun _ => none) sampleTagQuery sampleStored).2
    (some "u") [sampleStored] sampleTagResp sampleStored (by decide)
    (by simp [sampleTagResp])

lemma chunkKeys_eq (items : List RecKey) :
    chunkKeys items = if items.isEmpty then []
      else items.take 25 :: chunkKeys (items.drop 25) := by
  rw [chunkKeys]

lemma chunkKeys_flatten : ∀ (n : Nat) (items : List RecKey),
    items.length ≤ n → (chunkKeys items).flatten = items := by
  intro n
  induction n with
  | zero =>
    intro items h
    have h0 : items = [] := List.eq_nil_of_length_eq_zero (Nat.le_zero.mp h)
    subst h0
    rw [chunkKeys_eq]
    simp
  | succ n ih =>
    intro items h
    rw [chunkKeys_eq]
    by_cases he : items.isEmpty
    · rw [List.isEmpty_iff] at he
      simp [he]
    · have hpos : 0 < items.length := by
        cases items with
        | nil => simp at he
        | cons a t => simp
      simp only [he, Bool.false_eq_true, if_false, List.flatten_cons]
      rw [ih (items.drop 25) (by simp only [List.length_drop]; omega)]
      exact List.take_append_drop 25 items

lemma chunkKeys_sizes : ∀ (n : Nat) (items : List RecKey),
    items.length ≤ n → ∀ b ∈ chunkKeys items, b.length ≤ 25 := by
  intro n
  induction n with
  | zero =>
    intro items h b hb
    have h0 : items = [] := List.eq_nil_of_length_eq_zero (Nat.le_zero.mp h)
    subst h0
    rw [chunkKeys_eq] at hb
    simp at hb
  | succ n ih =>
    intro items h b hb
    rw [chunkKeys_eq] at hb
    by_cases he : items.isEmpty
    · simp [he] at hb
    · have hpos : 0 < items.length := by
        cases items with
        | nil => simp at he
        | cons a t => simp
      simp only [he, Bool.false_eq_true, if_false, List.mem_cons] at hb
      rcases hb with rfl | hb
      · simp [List.length_take]
      · exact ih (items.drop 25) (by simp only [List.length_drop]; omega) b hb

/-- Claim C8: bulk delete removes all of the owner's records in batches of
at most 25 per store call and reports the total number deleted; 57
records give exactly the batched calls 25+25+7 with `deletedCount = 57`;
no records give `deletedCount = 0` as a success response. -/
theorem C8_bulk_delete (items : List RecKey) :
    (deleteHandler items).deletedCount = items.length ∧
    (∀ b ∈ (deleteHandler items).batches, b.length ≤ 25) ∧
    ((deleteHandler items).batches.flatten = items) ∧
    (items.length = 57 →
      (deleteHandler items).batches.map List.length = [25, 25, 7]) ∧
    (items = [] → (deleteHandler items).deletedCount = 0 ∧
      (deleteHandler items).message = "No recommendations to delete") := by
  by_cases he : items.isEmpty
  · have h0 : items = [] := by
      cases items with
      | nil => rfl
      | cons a t => simp at he
    subst h0
    refine ⟨rfl, ?_, rfl, ?_, fun _ => ⟨rfl, rfl⟩⟩
    · intro b hb
      simp [deleteHandler] at hb
    · intro h57
      simp at h57
  · have hjoin := chunkKeys_flatten items.length items le_rfl
    have hsz := chunkKeys_sizes items.length items le_rfl
    have hbat : (deleteHandler items).batches = chunkKeys items := by
      simp [deleteHandler, he]
    have hcnt : (deleteHandler items).deletedCount =
        ((chunkKeys items).map List.length).sum := by
      simp [deleteHandler, he]
    refine ⟨?_, ?_, ?_, ?_, ?_⟩
    · rw [hcnt, ← List.length_flatten, hjoin]
    · intro b hb
      rw [hbat] at hb
      exact hsz b hb
    · rw [hbat, hjoin]
    · intro h57
      rw [hbat]
      have e1 : items.isEmpty = false := by simpa using he
      have d1 : (items.drop 25).length = 32 := by
        simp [List.length_drop, h57]
      have d2 : ((items.drop 25).drop 25).length = 7 := by
        simp [List.length_drop, h57]
      have d3 : (((items.drop 25).drop 25).drop 25).length = 0 := by
        simp [List.length_drop, h57]
      have e2 : (items.drop 25).isEmpty = false := by
        cases h : items.drop 25 with
        | nil => rw [h] at d1; simp at d1
        | cons a t => simp
      have e3 : ((items.drop 25).drop 25).isEmpty = false := by
        cases h : (items.drop 25).drop 25 with
        | nil => rw [h] at d2; simp at d2
        | cons a t => simp
      have e4 : (((items.drop 25).drop 25).drop 25) = [] :=
        List.eq_nil_of_length_eq_zero d3
      rw [chunkKeys_eq items, chunkKeys_eq (items.drop 25),
        chunkKeys_eq ((items.drop 25).drop 25),
        chunkKeys_eq (((items.drop 25).drop 25).drop 25)]
      simp only [e1, e2, e3, e4, Bool.false_eq_true, if_false,
        List.isEmpty_nil, if_true, List.map_cons, List.map_nil,
        List.length_take, h57, d1, d2]
      norm_num
    · intro h0
      subst h0
      simp at he

/-- Witness for claim C8 at a concrete owner with 57 records. -/
theorem C8_bulk_delete_witness :
    sampleKeys.length = 57 ∧
    (deleteHandler sampleKeys).batches.map List.length = [25, 25, 7] ∧
    (deleteHandler sampleKeys).deletedCount = 57 :=
  have h57 : sampleKeys.length = 57 := by simp [sampleKeys]
  ⟨h57, (C8_bulk_delete sampleKeys).2.2.2.1 h57,
   by rw [(C8_bulk_delete sampleKeys).1, h57]⟩

/-- Claim C9: the search response is independent of the `priority` query
parameter — two requests identical except for `priority` (its value or
its presence) produce identical results (same records, count, and filters
echo): the handler destructures `priority` but never uses it. -/
theorem C9_priority_independent (pd : String → Option Nat)
    (userId : Option String) (q : SearchQuery) (items : List StoredRecord)
    (p1 p2 : Option String) :
    searchHandler pd userId { q with priority := p1 } items =
      searchHandler pd userId { q with priority := p2 } items := rfl
